import Mathlib

/-
Verification of the FocusTimer phase/timer state machine.

The definitions below are a shallow embedding of the Chrome background
service worker (chrome/src/background.js), which owns the canonical
state machine, together with the duration-input handling of the popup
(chrome/src/popup.js).  JavaScript numbers that the program only ever
uses as integral millisecond timestamps or whole-second durations are
modelled as `Int`; a JavaScript number that may be non-finite (NaN or
Infinity fails `Number.isFinite`) or an absent field is modelled as
`Option Int` with `none` for the non-finite/absent case.  JavaScript
truthiness of a number (`0`, `null` and `undefined` are falsy) is
modelled explicitly where the source relies on it.
-/

namespace FocusTimer

/-- The `PHASES` enumeration of background.js: `idle`, `runningA`
(Focus counting down), `waitingForAConfirm` (Focus done, awaiting
confirmation) and `runningB` (Break counting down).  A paused phase is
represented, as in the source, by a running phase together with the
`paused` flag. -/
inductive Phase where
  | idle
  | runningA
  | waitingA
  | runningB
deriving DecidableEq, Repr

/-- The persisted timer state: the `state` record of background.js.
`endTimestamp` is in absolute milliseconds, `remainingSeconds` in whole
seconds.  A field that the source leaves `null` or absent (the object
stored by `transitionToWaiting` has no `paused`/`remainingSeconds`
keys; every reader treats the missing field as falsy) is `none`
respectively `false`. -/
structure TimerState where
  phase : Phase
  endTimestamp : Option Int
  paused : Bool
  remainingSeconds : Option Int
deriving DecidableEq, Repr

/-- `DEFAULT_STATE` of background.js. -/
def DEFAULT_STATE : TimerState :=
  { phase := .idle, endTimestamp := none, paused := false, remainingSeconds := none }

/-- The persisted configuration record (durations in seconds). -/
structure Config where
  durationASeconds : Int
  durationBSeconds : Int
deriving DecidableEq, Repr

/-- `DEFAULT_CONFIG` of background.js. -/
def DEFAULT_CONFIG : Config := { durationASeconds := 60, durationBSeconds := 60 }

/-- The raw config carried by a `start` message, before validation:
each duration is an arbitrary JavaScript number (`none` = non-finite
or absent). -/
structure RawConfig where
  durationASeconds : Option Int
  durationBSeconds : Option Int
deriving DecidableEq, Repr

/-- The completion notifications emitted by `notifyPhaseComplete`:
the "Focus Timer complete" and "Break Timer complete" user
notifications. -/
inductive Notification where
  | focusComplete
  | breakComplete
deriving DecidableEq, Repr

/-- `Math.ceil(d / 1000)` for an integral millisecond difference `d`:
ceiling division by 1000 (Lean `Int` division is Euclidean, which
floors for a positive divisor). -/
def ceilSecs (d : Int) : Int := -((-d) / 1000)

/-- Is the phase one of the two running phases (`runningA`/`runningB`)? -/
def runningPhase (p : Phase) : Bool := p == .runningA || p == .runningB

/-- JavaScript truthiness of a nullable number: `null`/`undefined` and
`0` are falsy. -/
def jsTruthy : Option Int → Bool
  | none => false
  | some n => n != 0

/-- The state written by `startPhase(phase, durationSeconds)`:
`endTimestamp = now + durationSeconds * 1000`, not paused, no
remaining seconds. -/
def startPhaseState (p : Phase) (durationSeconds now : Int) : TimerState :=
  { phase := p, endTimestamp := some (now + durationSeconds * 1000),
    paused := false, remainingSeconds := none }

/-- `handlePhaseCompletion` of background.js: if paused, do nothing;
from `runningA` transition to `waitingForAConfirm` (clearing
`endTimestamp`) and notify "Focus Timer complete"; from `runningB`
reset to the idle defaults and notify "Break Timer complete".  Returns
the new state and the emitted notifications. -/
def handlePhaseCompletion (s : TimerState) : TimerState × List Notification :=
  if s.paused then (s, [])
  else if s.phase == .runningA then
    ({ phase := .waitingA, endTimestamp := none, paused := false,
       remainingSeconds := none }, [.focusComplete])
  else if s.phase == .runningB then
    (DEFAULT_STATE, [.breakComplete])
  else (s, [])

/-- The heartbeat branch of `handleAlarm` (alarm name `heartbeat`):
return unchanged while paused; otherwise run the completion check when
the phase is running, `endTimestamp` is truthy and `now >=
endTimestamp`. -/
def heartbeatStep (now : Int) (s : TimerState) : TimerState × List Notification :=
  if s.paused then (s, [])
  else
    match s.endTimestamp with
    | some e =>
        if runningPhase s.phase && (e != 0) && decide (e ≤ now) then
          handlePhaseCompletion s
        else (s, [])
    | none => (s, [])

/-- The one-shot `phaseEnd` branch of `handleAlarm`: ignore unless the
phase is running and `endTimestamp` is truthy; complete when `now >=
endTimestamp`, otherwise re-schedule the alarm at `endTimestamp` (the
third component is the re-scheduled alarm time, if any). -/
def phaseEndStep (now : Int) (s : TimerState) :
    TimerState × List Notification × Option Int :=
  if !runningPhase s.phase then (s, [], none)
  else
    match s.endTimestamp with
    | some e =>
        if e == 0 then (s, [], none)
        else if decide (e ≤ now) then
          ((handlePhaseCompletion s).1, (handlePhaseCompletion s).2, none)
        else (s, [], some e)
    | none => (s, [], none)

/-- The state-machine part of `initialize()` in background.js
(process-start re-entry): if the persisted phase is running and its
truthy `endTimestamp` has passed, run the completion check; otherwise
re-schedule the completion alarm at `endTimestamp` (third component). -/
def bootStep (now : Int) (s : TimerState) :
    TimerState × List Notification × Option Int :=
  if runningPhase s.phase then
    match s.endTimestamp with
    | some e =>
        if (e != 0) && decide (e ≤ now) then
          ((handlePhaseCompletion s).1, (handlePhaseCompletion s).2, none)
        else if e != 0 then (s, [], some e)
        else (s, [], none)
    | none => (s, [], none)
  else (s, [], none)

/-- The `chrome.notifications.onButtonClicked` listener: if the phase
is `waitingForAConfirm` and the first button was clicked, start the
Break timer with the stored config. -/
def notifButtonStep (now : Int) (c : Config) (s : TimerState) (buttonIndex : Int) :
    TimerState :=
  if s.phase == .waitingA && buttonIndex == 0 then
    startPhaseState .runningB c.durationBSeconds now
  else s

/-- The messages accepted by the `chrome.runtime.onMessage` listener;
`other` stands for any unrecognized message type. -/
inductive Msg where
  | start (config : Option RawConfig)
  | ackA
  | pause
  | resume
  | cancel
  | other
deriving DecidableEq, Repr

/-- A response sent through `sendResponse`: `{ok: true}` or
`{ok: false, error: msg}`. -/
inductive Resp where
  | ok
  | err (msg : String)
deriving DecidableEq, Repr

/-- The outcome of one message dispatch: the persisted config, the
persisted timer state and the response. -/
structure StepOut where
  config : Config
  state : TimerState
  resp : Resp
deriving DecidableEq, Repr

/-- The validation applied to a `start` message's config: the message
must carry a config whose two durations are finite numbers that are at
least 1 (the listener rejects `!config`, non-finite values and values
`< 1`). -/
def validRawConfig : Option RawConfig → Bool
  | none => false
  | some c =>
      match c.durationASeconds, c.durationBSeconds with
      | some a, some b => decide (1 ≤ a) && decide (1 ≤ b)
      | _, _ => false

/-- The guard of the `pause` message: a running phase with a truthy
`endTimestamp`, not already paused. -/
def pauseGuard (s : TimerState) : Bool :=
  runningPhase s.phase && jsTruthy s.endTimestamp && !s.paused

/-- The guard of the `resume` message: paused, in a running phase,
with a truthy `remainingSeconds`. -/
def resumeGuard (s : TimerState) : Bool :=
  s.paused && runningPhase s.phase && jsTruthy s.remainingSeconds

/-- The `chrome.runtime.onMessage` listener of background.js, acting
on the persisted config and state at current time `now` (milliseconds).

* `start`: rejected with "Timer already running." unless idle; then the
  config is validated; on success the config is persisted
  (`startTimerA`) and the Focus phase starts.
* `ackA`: from `waitingForAConfirm` starts the Break phase
  (`startTimerB`, using the stored config); otherwise control falls
  through to the final `sendResponse({ok:false, error:"Invalid state."})`.
* `pause`: under `pauseGuard`, stores
  `remainingSeconds = max(1, ceil((endTimestamp - now)/1000))`, sets
  `paused` and clears `endTimestamp`; otherwise "Nothing to pause.".
* `resume`: under `resumeGuard`, sets
  `endTimestamp = now + remainingSeconds * 1000`, clears `paused` and
  `remainingSeconds`; otherwise "Nothing to resume.".
* `cancel`: `resetToIdle()` unconditionally.
* an unrecognized message: "Invalid state.".
-/
def onMessage (now : Int) (cfg : Config) (s : TimerState) : Msg → StepOut
  | .start rc =>
      if s.phase != .idle then
        { config := cfg, state := s, resp := .err "Timer already running." }
      else
        match rc with
        | some { durationASeconds := some a, durationBSeconds := some b } =>
            if decide (a < 1) || decide (b < 1) then
              { config := cfg, state := s, resp := .err "Invalid durations." }
            else
              { config := { durationASeconds := a, durationBSeconds := b },
                state := startPhaseState .runningA a now, resp := .ok }
        | _ => { config := cfg, state := s, resp := .err "Invalid durations." }
  | .ackA =>
      if s.phase == .waitingA then
        { config := cfg, state := startPhaseState .runningB cfg.durationBSeconds now,
          resp := .ok }
      else
        { config := cfg, state := s, resp := .err "Invalid state." }
  | .pause =>
      match s.endTimestamp with
      | some e =>
          if runningPhase s.phase && (e != 0) && !s.paused then
            { config := cfg,
              state :=
                { s with
                  paused := true,
                  remainingSeconds := some (max 1 (ceilSecs (e - now))),
                  endTimestamp := none },
              resp := .ok }
          else { config := cfg, state := s, resp := .err "Nothing to pause." }
      | none => { config := cfg, state := s, resp := .err "Nothing to pause." }
  | .resume =>
      match s.remainingSeconds with
      | some r =>
          if s.paused && runningPhase s.phase && (r != 0) then
            { config := cfg,
              state :=
                { s with
                  paused := false,
                  endTimestamp := some (now + r * 1000),
                  remainingSeconds := none },
              resp := .ok }
          else { config := cfg, state := s, resp := .err "Nothing to resume." }
      | none => { config := cfg, state := s, resp := .err "Nothing to resume." }
  | .cancel => { config := cfg, state := DEFAULT_STATE, resp := .ok }
  | .other => { config := cfg, state := s, resp := .err "Invalid state." }

/-- `clampMinutes` of popup.js: the parsed minutes value (`none` for a
string that parses to NaN) is rejected when NaN or `<= 0`.  Parsed
JavaScript numbers are modelled as rationals. -/
def clampMinutes : Option ℚ → Option ℚ
  | none => none
  | some p => if p ≤ 0 then none else some p

/-- JavaScript `Math.round`: round half toward positive infinity. -/
def jsRound (x : ℚ) : Int := Int.floor (x + 1 / 2)

/-- `minutesToSeconds` of popup.js: `Math.round(minutes * 60)`. -/
def minutesToSeconds (m : ℚ) : Int := jsRound (m * 60)

/-- The config built by the popup's Start-button click handler from
the two parsed duration inputs (after `clampMinutes` on each): the
focus input is compared against the debug sentinel `333` and mapped to
5 seconds when equal, otherwise converted with `minutesToSeconds`; the
break input is always converted with `minutesToSeconds`.  `none` when
either input fails `clampMinutes` (no start request is sent). -/
def startClickConfig (a b : Option ℚ) : Option Config :=
  match clampMinutes a, clampMinutes b with
  | some mA, some mB =>
      some { durationASeconds := if mA = 333 then 5 else minutesToSeconds mA,
             durationBSeconds := minutesToSeconds mB }
  | _, _ => none

/-- The states (paired with the persisted config) reachable from the
first-run defaults by any sequence of controller entries, each at some
current time `now ≥ 0` (JavaScript `Date.now()` is non-negative): a
message dispatch, a heartbeat alarm, the one-shot `phaseEnd` alarm, a
process-start `initialize()` re-entry, or a notification button
click. -/
inductive Reachable : Config → TimerState → Prop where
  | init : Reachable DEFAULT_CONFIG DEFAULT_STATE
  | msg {c : Config} {s : TimerState} (now : Int) (m : Msg) (h0 : 0 ≤ now)
      (h : Reachable c s) :
      Reachable (onMessage now c s m).config (onMessage now c s m).state
  | heartbeat {c : Config} {s : TimerState} (now : Int) (h0 : 0 ≤ now)
      (h : Reachable c s) : Reachable c (heartbeatStep now s).1
  | phaseEnd {c : Config} {s : TimerState} (now : Int) (h0 : 0 ≤ now)
      (h : Reachable c s) : Reachable c (phaseEndStep now s).1
  | boot {c : Config} {s : TimerState} (now : Int) (h0 : 0 ≤ now)
      (h : Reachable c s) : Reachable c (bootStep now s).1
  | notifButton {c : Config} {s : TimerState} (now : Int) (i : Int) (h0 : 0 ≤ now)
      (h : Reachable c s) : Reachable c (notifButtonStep now c s i)

/-- A persisted config is well-formed when both durations are at least
1 second (the defaults are, and `start` only persists validated
configs). -/
def goodConfig (c : Config) : Bool :=
  decide (1 ≤ c.durationASeconds) && decide (1 ≤ c.durationBSeconds)

/-- The strengthened state invariant maintained by every controller
entry: in `idle`/`waitingForAConfirm` all timer fields are cleared; in
a running phase, either (not paused) `endTimestamp` is a positive
timestamp and `remainingSeconds` is null, or (paused)
`remainingSeconds` is at least 1 and `endTimestamp` is null. -/
def goodState (s : TimerState) : Bool :=
  match s.phase with
  | .idle | .waitingA =>
      s.endTimestamp == none && s.remainingSeconds == none && !s.paused
  | .runningA | .runningB =>
      if s.paused then
        s.endTimestamp == none &&
          (match s.remainingSeconds with
           | some r => decide (1 ≤ r)
           | none => false)
      else
        (match s.endTimestamp with
         | some e => decide (1 ≤ e)
         | none => false) && s.remainingSeconds == none

/-- The exactly-one-of-`endTimestamp`/`remainingSeconds` invariant as
stated in the design document: while running and not paused,
`endTimestamp` is non-null and `remainingSeconds` is null; while
paused, `remainingSeconds` is non-null and `endTimestamp` is null; in
`idle` and `waitingForAConfirm` both are null. -/
def stateInv (s : TimerState) : Bool :=
  match s.phase with
  | .idle | .waitingA => s.endTimestamp == none && s.remainingSeconds == none
  | .runningA | .runningB =>
      if s.paused then s.remainingSeconds.isSome && s.endTimestamp == none
      else s.endTimestamp.isSome && s.remainingSeconds == none

theorem stateInv_of_goodState {s : TimerState} (h : goodState s = true) :
    stateInv s = true := by
  rcases s with ⟨p, et, pa, rs⟩
  cases p <;> cases pa <;> cases et <;> cases rs <;>
    simp_all [goodState, stateInv]

theorem goodState_handlePhaseCompletion {s : TimerState}
    (h : goodState s = true) :
    goodState (handlePhaseCompletion s).1 = true := by
  rcases s with ⟨p, et, pa, rs⟩
  cases pa <;> cases p <;>
    simp_all [goodState, handlePhaseCompletion, DEFAULT_STATE]

theorem goodState_startPhaseState {p : Phase} {d now : Int}
    (hp : p = .runningA ∨ p = .runningB) (hd : 1 ≤ d) (h0 : 0 ≤ now) :
    goodState (startPhaseState p d now) = true := by
  rcases hp with hp | hp <;> subst hp <;>
    simp [goodState, startPhaseState] <;> omega

theorem good_onMessage {c : Config} {s : TimerState} (now : Int) (m : Msg)
    (h0 : 0 ≤ now) (hc : goodConfig c = true) (hs : goodState s = true) :
    goodConfig (onMessage now c s m).config = true ∧
      goodState (onMessage now c s m).state = true := by
  cases m with
  | start rc =>
      simp only [onMessage]
      split
      · exact ⟨hc, hs⟩
      · match rc with
        | none => exact ⟨hc, hs⟩
        | some { durationASeconds := none, durationBSeconds := _ } => exact ⟨hc, hs⟩
        | some { durationASeconds := some a, durationBSeconds := none } => exact ⟨hc, hs⟩
        | some { durationASeconds := some a, durationBSeconds := some b } =>
            simp only []
            split
            · exact ⟨hc, hs⟩
            · rename_i hlt
              simp only [Bool.or_eq_true, decide_eq_true_eq, not_or] at hlt
              refine ⟨by simp only [goodConfig, Bool.and_eq_true,
                decide_eq_true_eq]; omega, ?_⟩
              exact goodState_startPhaseState (Or.inl rfl) (by omega) h0
  | ackA =>
      simp only [onMessage]
      split
      · refine ⟨hc, ?_⟩
        simp only [goodConfig, Bool.and_eq_true, decide_eq_true_eq] at hc
        exact goodState_startPhaseState (Or.inr rfl) hc.2 h0
      · exact ⟨hc, hs⟩
  | pause =>
      simp only [onMessage]
      split
      · rename_i e het
        split
        · rename_i hg
          simp only [Bool.and_eq_true, Bool.not_eq_true'] at hg
          refine ⟨hc, ?_⟩
          rcases s with ⟨p, et, pa, rs⟩
          simp only [] at hg ⊢
          rcases hg with ⟨⟨hrun, _⟩, hpa⟩
          subst hpa
          revert hrun
          cases p <;> simp [runningPhase, goodState]
        · exact ⟨hc, hs⟩
      · exact ⟨hc, hs⟩
  | resume =>
      simp only [onMessage]
      split
      · rename_i r hrs
        split
        · rename_i hg
          simp only [Bool.and_eq_true] at hg
          refine ⟨hc, ?_⟩
          rcases s with ⟨p, et, pa, rs⟩
          simp only [] at hg hrs ⊢
          rcases hg with ⟨⟨hpa, hrun⟩, _⟩
          subst hrs
          -- from the invariant on the paused source state, r ≥ 1
          have hr1 : 1 ≤ r := by
            revert hs
            cases p <;> simp_all [runningPhase, goodState]
          revert hrun
          cases p <;> simp [runningPhase, goodState] <;> omega
        · exact ⟨hc, hs⟩
      · exact ⟨hc, hs⟩
  | cancel => exact ⟨hc, by simp [DEFAULT_STATE, goodState, onMessage]⟩
  | other => exact ⟨hc, hs⟩

theorem good_heartbeatStep {s : TimerState} (now : Int) (hs : goodState s = true) :
    goodState (heartbeatStep now s).1 = true := by
  unfold heartbeatStep
  split
  · exact hs
  · split
    · split
      · exact goodState_handlePhaseCompletion hs
      · exact hs
    · exact hs

theorem good_phaseEndStep {s : TimerState} (now : Int) (hs : goodState s = true) :
    goodState (phaseEndStep now s).1 = true := by
  unfold phaseEndStep
  split
  · exact hs
  · split
    · split
      · exact hs
      · split
        · exact goodState_handlePhaseCompletion hs
        · exact hs
    · exact hs

theorem good_bootStep {s : TimerState} (now : Int) (hs : goodState s = true) :
    goodState (bootStep now s).1 = true := by
  unfold bootStep
  split
  · split
    · split
      · exact goodState_handlePhaseCompletion hs
      · split
        · exact hs
        · exact hs
    · exact hs
  · exact hs

theorem good_notifButtonStep {c : Config} {s : TimerState} (now i : Int)
    (h0 : 0 ≤ now) (hc : goodConfig c = true) (hs : goodState s = true) :
    goodState (notifButtonStep now c s i) = true := by
  unfold notifButtonStep
  split
  · simp only [goodConfig, Bool.and_eq_true, decide_eq_true_eq] at hc
    exact goodState_startPhaseState (Or.inr rfl) hc.2 h0
  · exact hs

theorem reachable_good {c : Config} {s : TimerState} (h : Reachable c s) :
    goodConfig c = true ∧ goodState s = true := by
  induction h with
  | init => exact ⟨by decide, by decide⟩
  | msg now m h0 h ih => exact good_onMessage now m h0 ih.1 ih.2
  | heartbeat now h0 h ih => exact ⟨ih.1, good_heartbeatStep now ih.2⟩
  | phaseEnd now h0 h ih => exact ⟨ih.1, good_phaseEndStep now ih.2⟩
  | boot now h0 h ih => exact ⟨ih.1, good_bootStep now ih.2⟩
  | notifButton now i h0 h ih => exact ⟨ih.1, good_notifButtonStep now i h0 ih.1 ih.2⟩

/-- A `waitingForAConfirm` state as persisted by `transitionToWaiting`. -/
def waitingState : TimerState :=
  { phase := .waitingA, endTimestamp := none, paused := false, remainingSeconds := none }

/-- The running-Focus state produced by `start` with one-second durations
at time 0. -/
def runState1 : TimerState :=
  { phase := .runningA, endTimestamp := some 1000, paused := false,
    remainingSeconds := none }

/-- A running-Focus state ending at 5000 ms. -/
def runState5 : TimerState :=
  { phase := .runningA, endTimestamp := some 5000, paused := false,
    remainingSeconds := none }

/-- A paused Focus state carrying a stale `endTimestamp` (42 ms, long past). -/
def pausedStale : TimerState :=
  { phase := .runningA, endTimestamp := some 42, paused := true,
    remainingSeconds := some 5 }

/-- A one-second/one-second config. -/
def oneOneConfig : Config := { durationASeconds := 1, durationBSeconds := 1 }

theorem reach_runState1 : Reachable oneOneConfig runState1 := by
  have h := Reachable.msg 0
    (.start (some { durationASeconds := some 1, durationBSeconds := some 1 }))
    le_rfl Reachable.init
  have he : onMessage 0 DEFAULT_CONFIG DEFAULT_STATE
      (.start (some { durationASeconds := some 1, durationBSeconds := some 1 }))
      = { config := oneOneConfig, state := runState1, resp := .ok } := by decide
  rw [he] at h
  exact h

theorem reachable_running_end_pos {c : Config} {s : TimerState} {e : Int}
    (hr : Reachable c s) (hp : s.phase = .runningA ∨ s.phase = .runningB)
    (hnp : s.paused = false) (he : s.endTimestamp = some e) : 1 ≤ e := by
  have hg := (reachable_good hr).2
  rcases s with ⟨p, et, pa, rs⟩
  simp only at hp hnp he
  subst hnp
  subst he
  rcases hp with h | h <;> subst h <;> simp_all [goodState]

/-- Claim C3: every state reachable from the Idle default by any
sequence of operations (start, pause, resume, acknowledge, cancel,
completion check, heartbeat, process-start re-entry) satisfies: while
running (not paused) `endTimestamp` is non-null and `remainingSeconds`
is null; while paused `remainingSeconds` is non-null and
`endTimestamp` is null; in Idle and WaitingConfirm both are null. -/
theorem c3_exactly_one_time_field {c : Config} {s : TimerState}
    (h : Reachable c s) : stateInv s = true :=
  stateInv_of_goodState (reachable_good h).2

theorem c3_exactly_one_time_field_witness : stateInv runState1 = true :=
  c3_exactly_one_time_field reach_runState1

/-- Claim C7: for durations `a, b ≥ 1` (seconds), `start` in phase
Idle persists the config, yields phase `runningA` (RunningFocus) with
`remainingSeconds` null and `paused` false, sets `endTimestamp` to the
start time plus the focus duration (in milliseconds:
`now + a * 1000`), and responds ok. -/
theorem c7_start_from_idle (now : Int) (c : Config) (s : TimerState) (a b : Int)
    (hs : s.phase = .idle) (ha : 1 ≤ a) (hb : 1 ≤ b) :
    onMessage now c s
        (.start (some { durationASeconds := some a, durationBSeconds := some b }))
      = { config := { durationASeconds := a, durationBSeconds := b },
          state := { phase := .runningA, endTimestamp := some (now + a * 1000),
                     paused := false, remainingSeconds := none },
          resp := .ok } := by
  have h1 : (s.phase != Phase.idle) = false := by simp [hs]
  have h2 : (decide (a < 1) || decide (b < 1)) = false := by
    simp only [Bool.or_eq_false_iff, decide_eq_false_iff_not, not_lt]
    exact ⟨ha, hb⟩
  simp [onMessage, h1, h2, startPhaseState]

theorem c7_start_from_idle_witness :
    onMessage 100 DEFAULT_CONFIG DEFAULT_STATE
        (.start (some { durationASeconds := some 60, durationBSeconds := some 120 }))
      = { config := { durationASeconds := 60, durationBSeconds := 120 },
          state := { phase := .runningA, endTimestamp := some (100 + 60 * 1000),
                     paused := false, remainingSeconds := none },
          resp := .ok } :=
  c7_start_from_idle 100 DEFAULT_CONFIG DEFAULT_STATE 60 120 rfl
    (by omega) (by omega)

/-- Claim C5: every rejected operation returns a structured
`ok = false` result with a reason and leaves both the persisted config
and state unchanged, the guard having been checked before any
mutation: `start` from Idle with an invalid config (absent, non-finite
or sub-1 durations) is rejected with "Invalid durations.", `start`
from any non-Idle phase with "Timer already running.", and a `pause`
or `resume` whose guard fails with "Nothing to pause." / "Nothing to
resume.". -/
theorem c5_rejections_leave_state_unchanged :
    (∀ (now : Int) (c : Config) (s : TimerState) (rc : Option RawConfig),
        s.phase = .idle → validRawConfig rc = false →
        onMessage now c s (.start rc)
          = { config := c, state := s, resp := .err "Invalid durations." }) ∧
    (∀ (now : Int) (c : Config) (s : TimerState) (rc : Option RawConfig),
        s.phase ≠ .idle →
        onMessage now c s (.start rc)
          = { config := c, state := s, resp := .err "Timer already running." }) ∧
    (∀ (now : Int) (c : Config) (s : TimerState),
        pauseGuard s = false →
        onMessage now c s .pause
          = { config := c, state := s, resp := .err "Nothing to pause." }) ∧
    (∀ (now : Int) (c : Config) (s : TimerState),
        resumeGuard s = false →
        onMessage now c s .resume
          = { config := c, state := s, resp := .err "Nothing to resume." }) := by
  refine ⟨?_, ?_, ?_, ?_⟩
  · intro now c s rc hs hv
    have h1 : (s.phase != Phase.idle) = false := by simp [hs]
    match rc with
    | none => simp [onMessage, h1]
    | some { durationASeconds := none, durationBSeconds := _ } =>
        simp [onMessage, h1]
    | some { durationASeconds := some a, durationBSeconds := none } =>
        simp [onMessage, h1]
    | some { durationASeconds := some a, durationBSeconds := some b } =>
        simp only [validRawConfig, Bool.and_eq_false_iff,
          decide_eq_false_iff_not, not_le] at hv
        have h2 : (decide (a < 1) || decide (b < 1)) = true := by
          simp only [Bool.or_eq_true, decide_eq_true_eq]
          omega
        simp [onMessage, h1, h2]
  · intro now c s rc hs
    have h1 : (s.phase != Phase.idle) = true := by simp [hs]
    simp [onMessage, h1]
  · intro now c s hg
    rcases s with ⟨p, et, pa, rs⟩
    cases et <;> simp_all [onMessage, pauseGuard, jsTruthy]
  · intro now c s hg
    rcases s with ⟨p, et, pa, rs⟩
    cases rs <;> simp_all [onMessage, resumeGuard, jsTruthy]

theorem c5_rejections_leave_state_unchanged_witness :
    onMessage 0 DEFAULT_CONFIG DEFAULT_STATE
        (.start (some { durationASeconds := some 0, durationBSeconds := some 60 }))
      = { config := DEFAULT_CONFIG, state := DEFAULT_STATE,
          resp := .err "Invalid durations." } ∧
    onMessage 0 DEFAULT_CONFIG waitingState
        (.start (some { durationASeconds := some 60, durationBSeconds := some 60 }))
      = { config := DEFAULT_CONFIG, state := waitingState,
          resp := .err "Timer already running." } ∧
    onMessage 0 DEFAULT_CONFIG DEFAULT_STATE .pause
      = { config := DEFAULT_CONFIG, state := DEFAULT_STATE,
          resp := .err "Nothing to pause." } ∧
    onMessage 0 DEFAULT_CONFIG DEFAULT_STATE .resume
      = { config := DEFAULT_CONFIG, state := DEFAULT_STATE,
          resp := .err "Nothing to resume." } :=
  ⟨c5_rejections_leave_state_unchanged.1 0 DEFAULT_CONFIG DEFAULT_STATE _
      rfl (by decide),
   c5_rejections_leave_state_unchanged.2.1 0 DEFAULT_CONFIG waitingState _
      (by decide),
   c5_rejections_leave_state_unchanged.2.2.1 0 DEFAULT_CONFIG DEFAULT_STATE
      (by decide),
   c5_rejections_leave_state_unchanged.2.2.2 0 DEFAULT_CONFIG DEFAULT_STATE
      (by decide)⟩

/-- Claim C4 (counterexample): after a first acknowledge from
WaitingConfirm, a second acknowledge is answered with the structured
rejection `{ok: false, error: "Invalid state."}` — the `ackA` branch
falls through to the listener's final `sendResponse` — rather than
being an ignored non-error no-op as the claim states. -/
theorem c4_second_ack_answered_with_error :
    (onMessage 0 DEFAULT_CONFIG
        (onMessage 0 DEFAULT_CONFIG waitingState .ackA).state .ackA).resp
      = .err "Invalid state." ∧
    (onMessage 0 DEFAULT_CONFIG
        (onMessage 0 DEFAULT_CONFIG waitingState .ackA).state .ackA).resp
      ≠ .ok := by decide

/-- Claim C4 (amended): acknowledge is idempotent on the persisted
state and never throws: from WaitingConfirm it transitions to
RunningBreak once, and a second acknowledge leaves the config and
state unchanged, but it is answered with the structured rejection
`ok = false`, "Invalid state." (the generic unknown-message response)
rather than being silently ignored. -/
theorem c4_ack_idempotent_on_state (t1 t2 : Int) (c : Config) (s : TimerState)
    (h : s.phase = .waitingA) :
    (onMessage t1 c s .ackA).resp = .ok ∧
    (onMessage t1 c s .ackA).state.phase = .runningB ∧
    (onMessage t1 c s .ackA).config = c ∧
    onMessage t2 (onMessage t1 c s .ackA).config (onMessage t1 c s .ackA).state .ackA
      = { config := c, state := (onMessage t1 c s .ackA).state,
          resp := .err "Invalid state." } := by
  have h1 : (s.phase == Phase.waitingA) = true := by simp [h]
  simp [onMessage, h1, startPhaseState]

theorem c4_ack_idempotent_on_state_witness :
    (onMessage 0 DEFAULT_CONFIG waitingState .ackA).resp = .ok ∧
    (onMessage 0 DEFAULT_CONFIG waitingState .ackA).state.phase = .runningB ∧
    (onMessage 0 DEFAULT_CONFIG waitingState .ackA).config = DEFAULT_CONFIG ∧
    onMessage 5 (onMessage 0 DEFAULT_CONFIG waitingState .ackA).config
        (onMessage 0 DEFAULT_CONFIG waitingState .ackA).state .ackA
      = { config := DEFAULT_CONFIG,
          state := (onMessage 0 DEFAULT_CONFIG waitingState .ackA).state,
          resp := .err "Invalid state." } :=
  c4_ack_idempotent_on_state 0 5 DEFAULT_CONFIG waitingState rfl

/-- Claim C8: `cancel` from any phase responds ok and resets to the
Idle default state, whose `endTimestamp` and `remainingSeconds` are
both null; and a stale completion check (the one-shot `phaseEnd` alarm
or a heartbeat) that fires after the cancel re-validates the current
phase, finds Idle, performs no transition, emits no notification and
re-schedules nothing. -/
theorem c8_cancel_wins (t1 t2 : Int) (c : Config) (s : TimerState) :
    onMessage t1 c s .cancel = { config := c, state := DEFAULT_STATE, resp := .ok } ∧
    DEFAULT_STATE.phase = .idle ∧
    DEFAULT_STATE.endTimestamp = none ∧
    DEFAULT_STATE.remainingSeconds = none ∧
    phaseEndStep t2 DEFAULT_STATE = (DEFAULT_STATE, [], none) ∧
    heartbeatStep t2 DEFAULT_STATE = (DEFAULT_STATE, []) := by
  exact ⟨rfl, rfl, rfl, rfl, rfl, rfl⟩

theorem bootStep_of_completion_noop {s : TimerState} (now : Int)
    (hcomp : handlePhaseCompletion s = (s, [])) :
    (bootStep now s).1 = s ∧ (bootStep now s).2.1 = [] := by
  unfold bootStep
  split
  · split
    · split
      · simp [hcomp]
      · split
        · exact ⟨rfl, rfl⟩
        · exact ⟨rfl, rfl⟩
    · exact ⟨rfl, rfl⟩
  · exact ⟨rfl, rfl⟩

theorem phaseEndStep_of_completion_noop {s : TimerState} (now : Int)
    (hcomp : handlePhaseCompletion s = (s, [])) :
    (phaseEndStep now s).1 = s ∧ (phaseEndStep now s).2.1 = [] := by
  unfold phaseEndStep
  split
  · exact ⟨rfl, rfl⟩
  · split
    · split
      · exact ⟨rfl, rfl⟩
      · split
        · simp [hcomp]
        · exact ⟨rfl, rfl⟩
    · exact ⟨rfl, rfl⟩

/-- Claim C2: from a paused running phase, no re-entry of the
controller — the completion check itself, a heartbeat, the one-shot
`phaseEnd` alarm, or process-start re-entry — ever changes the state
or emits a completion notification, even when a stale `endTimestamp`
is present and has passed; and among the messages, only `resume` and
`cancel` can change the persisted state. -/
theorem c2_paused_freezes_phase (now : Int) (c : Config) (s : TimerState)
    (hrun : s.phase = .runningA ∨ s.phase = .runningB) (hp : s.paused = true) :
    handlePhaseCompletion s = (s, []) ∧
    heartbeatStep now s = (s, []) ∧
    (bootStep now s).1 = s ∧ (bootStep now s).2.1 = [] ∧
    (phaseEndStep now s).1 = s ∧ (phaseEndStep now s).2.1 = [] ∧
    (∀ m : Msg, m ≠ .resume → m ≠ .cancel → (onMessage now c s m).state = s) := by
  have hcomp : handlePhaseCompletion s = (s, []) := by
    simp [handlePhaseCompletion, hp]
  refine ⟨hcomp, by simp [heartbeatStep, hp],
    (bootStep_of_completion_noop now hcomp).1,
    (bootStep_of_completion_noop now hcomp).2,
    (phaseEndStep_of_completion_noop now hcomp).1,
    (phaseEndStep_of_completion_noop now hcomp).2, ?_⟩
  intro m hm1 hm2
  have hni : (s.phase != Phase.idle) = true := by
    rcases hrun with h | h <;> simp [h]
  have hnw : (s.phase == Phase.waitingA) = false := by
    rcases hrun with h | h <;> simp [h]
  cases m with
  | start rc =>
      match rc with
      | none => simp [onMessage, hni]
      | some rc0 => simp [onMessage, hni]
  | ackA => simp [onMessage, hnw]
  | pause =>
      simp only [onMessage]
      cases hse : s.endTimestamp with
      | none => rfl
      | some e => simp [hp]
  | resume => exact absurd rfl hm1
  | cancel => exact absurd rfl hm2
  | other => rfl

theorem c2_paused_freezes_phase_witness :
    handlePhaseCompletion pausedStale = (pausedStale, []) ∧
    heartbeatStep 99999 pausedStale = (pausedStale, []) ∧
    (bootStep 99999 pausedStale).1 = pausedStale ∧
    (onMessage 99999 DEFAULT_CONFIG pausedStale .pause).state = pausedStale :=
  ⟨(c2_paused_freezes_phase 99999 DEFAULT_CONFIG pausedStale (Or.inl rfl) rfl).1,
   (c2_paused_freezes_phase 99999 DEFAULT_CONFIG pausedStale (Or.inl rfl) rfl).2.1,
   (c2_paused_freezes_phase 99999 DEFAULT_CONFIG pausedStale (Or.inl rfl) rfl).2.2.1,
   (c2_paused_freezes_phase 99999 DEFAULT_CONFIG pausedStale (Or.inl rfl) rfl).2.2.2.2.2.2
      .pause (by decide) (by decide)⟩

/-- Claim C1: for every reachable persisted state in a running,
non-paused phase whose `endTimestamp` has already passed, each of the
three re-entry points — process-start `initialize()`, a heartbeat
firing, and the one-shot completion alarm firing — performs the same
transition the on-time check would have: `runningA` (RunningFocus)
goes to `waitingForAConfirm` clearing `endTimestamp` and emitting the
focus-complete notification, and `runningB` (RunningBreak) resets to
the Idle defaults emitting the break-complete notification. -/
theorem c1_reentry_completes_overdue_phase {c : Config} {s : TimerState}
    {now e : Int} (hr : Reachable c s)
    (hp : s.phase = .runningA ∨ s.phase = .runningB)
    (hnp : s.paused = false) (he : s.endTimestamp = some e) (hle : e ≤ now) :
    (s.phase = .runningA →
      bootStep now s = (waitingState, [.focusComplete], none) ∧
      heartbeatStep now s = (waitingState, [.focusComplete]) ∧
      phaseEndStep now s = (waitingState, [.focusComplete], none)) ∧
    (s.phase = .runningB →
      bootStep now s = (DEFAULT_STATE, [.breakComplete], none) ∧
      heartbeatStep now s = (DEFAULT_STATE, [.breakComplete]) ∧
      phaseEndStep now s = (DEFAULT_STATE, [.breakComplete], none)) := by
  have he1 : 1 ≤ e := reachable_running_end_pos hr hp hnp he
  have hne : (e != 0) = true := by simp; omega
  have hlee : decide (e ≤ now) = true := by simp [hle]
  have hrp : runningPhase s.phase = true := by
    rcases hp with h | h <;> simp [runningPhase, h]
  constructor
  · intro hA
    have hcomp : handlePhaseCompletion s = (waitingState, [.focusComplete]) := by
      simp [handlePhaseCompletion, hnp, hA, waitingState]
    refine ⟨?_, ?_, ?_⟩
    · simp [bootStep, hrp, he, hne, hlee, hcomp]
    · simp [heartbeatStep, hnp, he, hrp, hne, hlee, hcomp]
    · simp [phaseEndStep, hrp, he, hne, hlee, hcomp]; omega
  · intro hB
    have hcomp : handlePhaseCompletion s = (DEFAULT_STATE, [.breakComplete]) := by
      simp [handlePhaseCompletion, hnp, hB, DEFAULT_STATE]
    refine ⟨?_, ?_, ?_⟩
    · simp [bootStep, hrp, he, hne, hlee, hcomp]
    · simp [heartbeatStep, hnp, he, hrp, hne, hlee, hcomp]
    · simp [phaseEndStep, hrp, he, hne, hlee, hcomp]; omega

theorem c1_reentry_completes_overdue_phase_witness :
    bootStep 1000 runState1 = (waitingState, [.focusComplete], none) ∧
    heartbeatStep 1000 runState1 = (waitingState, [.focusComplete]) ∧
    phaseEndStep 1000 runState1 = (waitingState, [.focusComplete], none) :=
  (c1_reentry_completes_overdue_phase reach_runState1 (Or.inl rfl) rfl rfl
      le_rfl).1 rfl

/-- Claim C6: from a running, non-paused phase paused strictly before
its end time, `pause` at `t1` then `resume` at `t2` both succeed, the
resumed state is the pre-pause running phase (same phase, not paused),
the captured `remainingSeconds` is at least 1, and the new
`endTimestamp` equals the old one shifted by the wall-clock pause
duration `t2 - t1` within the ±1 second (1000 ms) rounding
tolerance. -/
theorem c6_pause_resume_round_trip (c : Config) (s : TimerState)
    (t1 t2 e : Int) (hp : s.phase = .runningA ∨ s.phase = .runningB)
    (hnp : s.paused = false) (he : s.endTimestamp = some e)
    (h0 : 0 ≤ t1) (hlt : t1 < e) :
    ∃ rem : Int,
      onMessage t1 c s .pause
        = { config := c,
            state :=
              { s with
                paused := true,
                endTimestamp := none,
                remainingSeconds := some rem },
            resp := .ok } ∧
      1 ≤ rem ∧
      onMessage t2 c
          { s with
            paused := true,
            endTimestamp := none,
            remainingSeconds := some rem } .resume
        = { config := c,
            state :=
              { s with
                paused := false,
                endTimestamp := some (t2 + rem * 1000),
                remainingSeconds := none },
            resp := .ok } ∧
      |(t2 + rem * 1000) - (e + (t2 - t1))| ≤ 999 := by
  have hrp : runningPhase s.phase = true := by
    rcases hp with h | h <;> simp [runningPhase, h]
  have hne : (e != 0) = true := by simp; omega
  have hnpb : (!s.paused) = true := by simp [hnp]
  refine ⟨max 1 (ceilSecs (e - t1)), ?_, le_max_left 1 _, ?_, ?_⟩
  · simp [onMessage, he, hrp, hne, hnpb]
  · have hr1 : (1 : Int) ≤ max 1 (ceilSecs (e - t1)) := le_max_left 1 _
    have hrne : (max 1 (ceilSecs (e - t1)) != 0) = true := by simp; omega
    simp [onMessage, hrp, hnp, hrne]
  · have hmax : max 1 (ceilSecs (e - t1)) = ceilSecs (e - t1) := by
      unfold ceilSecs; omega
    rw [hmax, abs_le]
    unfold ceilSecs
    constructor <;> omega

theorem c6_pause_resume_round_trip_witness :
    onMessage 500 DEFAULT_CONFIG runState5 .pause
      = { config := DEFAULT_CONFIG,
          state := { phase := .runningA, endTimestamp := none, paused := true,
                     remainingSeconds := some 5 },
          resp := .ok } ∧
    onMessage 7777 DEFAULT_CONFIG
        { phase := .runningA, endTimestamp := none, paused := true,
          remainingSeconds := some 5 } .resume
      = { config := DEFAULT_CONFIG,
          state := { phase := .runningA, endTimestamp := some (7777 + 5 * 1000),
                     paused := false, remainingSeconds := none },
          resp := .ok } ∧
    |((7777 : Int) + 5 * 1000) - (5000 + (7777 - 500))| ≤ 999 := by
  obtain ⟨rem, h1, hr1, h2, h3⟩ :=
    c6_pause_resume_round_trip DEFAULT_CONFIG runState5 500 7777 5000
      (Or.inl rfl) rfl rfl (by omega) (by omega)
  have hrem : rem = 5 := by
    have h1a : (onMessage 500 DEFAULT_CONFIG runState5 .pause).state.remainingSeconds
        = some rem := by rw [h1]
    have h1b : (onMessage 500 DEFAULT_CONFIG runState5 .pause).state.remainingSeconds
        = some 5 := by decide
    rw [h1b] at h1a
    exact (Option.some.inj h1a).symm
  subst hrem
  exact ⟨h1, h2, h3⟩

/-- Claim C10: `pause` on a reachable running, non-paused state whose
`endTimestamp` has already passed still succeeds with `ok = true`,
stores `remainingSeconds = 1` (the `max(1, …)` clamp), keeps the
running phase instead of completing it, and a later `resume` at `t2`
grants the phase one more second, setting `endTimestamp = t2 + 1000`
rather than transitioning to WaitingConfirm or Idle. -/
theorem c10_overdue_pause_succeeds {c : Config} {s : TimerState} {now e : Int}
    (t2 : Int) (hr : Reachable c s)
    (hp : s.phase = .runningA ∨ s.phase = .runningB)
    (hnp : s.paused = false) (he : s.endTimestamp = some e) (hover : e ≤ now) :
    onMessage now c s .pause
      = { config := c,
          state :=
            { s with
              paused := true,
              endTimestamp := none,
              remainingSeconds := some 1 },
          resp := .ok } ∧
    onMessage t2 c
        { s with
          paused := true,
          endTimestamp := none,
          remainingSeconds := some 1 } .resume
      = { config := c,
          state :=
            { s with
              paused := false,
              endTimestamp := some (t2 + 1 * 1000),
              remainingSeconds := none },
          resp := .ok } := by
  have he1 : 1 ≤ e := reachable_running_end_pos hr hp hnp he
  have hrp : runningPhase s.phase = true := by
    rcases hp with h | h <;> simp [runningPhase, h]
  have hne : (e != 0) = true := by simp; omega
  have hnpb : (!s.paused) = true := by simp [hnp]
  have hclamp : max 1 (ceilSecs (e - now)) = 1 := by
    unfold ceilSecs; omega
  constructor
  · simp [onMessage, he, hrp, hne, hnpb, hclamp]
  · simp [onMessage, hrp, hnp]

theorem c10_overdue_pause_succeeds_witness :
    onMessage 64000 oneOneConfig runState1 .pause
      = { config := oneOneConfig,
          state := { phase := .runningA, endTimestamp := none, paused := true,
                     remainingSeconds := some 1 },
          resp := .ok } ∧
    onMessage 70000 oneOneConfig
        { phase := .runningA, endTimestamp := none, paused := true,
          remainingSeconds := some 1 } .resume
      = { config := oneOneConfig,
          state := { phase := .runningA, endTimestamp := some (70000 + 1 * 1000),
                     paused := false, remainingSeconds := none },
          resp := .ok } :=
  c10_overdue_pause_succeeds 70000 reach_runState1 (Or.inl rfl) rfl rfl
    (by omega)

/-- Claim C9: when the popup's focus-duration input parses to 333
(minutes), the start request carries a focus duration of exactly 5
seconds instead of the normal conversion `333 * 60 = 19980` seconds,
while the break duration is converted normally — the sentinel applies
only to the focus input, so a break input of 333 yields 19980
seconds. -/
theorem c9_debug_sentinel_focus_only (mB : ℚ) (hB : 0 < mB) :
    startClickConfig (some 333) (some mB)
      = some { durationASeconds := 5, durationBSeconds := minutesToSeconds mB } ∧
    startClickConfig (some 333) (some 333)
      = some { durationASeconds := 5, durationBSeconds := 19980 } ∧
    minutesToSeconds 333 = 19980 := by
  have h333 : minutesToSeconds 333 = 19980 := by
    norm_num [minutesToSeconds, jsRound]
  have hcA : clampMinutes (some 333) = some 333 := by norm_num [clampMinutes]
  have hcB : clampMinutes (some mB) = some mB := by
    simp [clampMinutes, not_le.mpr hB]
  refine ⟨?_, ?_, h333⟩
  · simp [startClickConfig, hcA, hcB]
  · simp [startClickConfig, hcA, h333]

theorem c9_debug_sentinel_focus_only_witness :
    startClickConfig (some 333) (some 7)
      = some { durationASeconds := 5, durationBSeconds := minutesToSeconds 7 } ∧
    startClickConfig (some 333) (some 333)
      = some { durationASeconds := 5, durationBSeconds := 19980 } ∧
    minutesToSeconds 333 = 19980 :=
  c9_debug_sentinel_focus_only 7 (by norm_num)

end FocusTimer
